import Mathlib

/-! Shallow embedding of the wx-domain-monitor repository
(src/domain_monitor.py and src/domain_check.py): JSON values as Python's
json module yields them, the Tencent reputation check call, the
classification logic of the monitor loop and of the single-shot checker,
webhook notification dispatch, domain-list loading, per-day log
persistence, and one monitor cycle; followed by theorems settling the
specified behaviour. -/

namespace WxMonitor

/-- JSON values as Python's `json.loads` produces them: None, bool, int,
str, list, and dict (modelled as an association list of string keys in
insertion order; `json.loads` never yields duplicate keys). Floating-point
JSON numbers do not occur in the modelled endpoint responses and are not
modelled. -/
inductive JVal where
  | jnull : JVal
  | jbool : Bool → JVal
  | jint : Int → JVal
  | jstr : String → JVal
  | jarr : List JVal → JVal
  | jobj : List (String × JVal) → JVal

/-- Python truthiness of a JSON value: None, False, 0, "", the empty list
and the empty dict are falsy, everything else truthy. -/
def pyTruthy : JVal → Bool
  | JVal.jnull => false
  | JVal.jbool b => b
  | JVal.jint n => n != 0
  | JVal.jstr s => s != ""
  | JVal.jarr l => !l.isEmpty
  | JVal.jobj l => !l.isEmpty

/-- First binding of a key in a Python dict modelled as an association
list (the base of indexing and the membership test). -/
def dictLookup (fields : List (String × JVal)) (k : String) : Option JVal :=
  match fields with
  | [] => none
  | (k1, v) :: rest => if k1 = k then some v else dictLookup rest k

/-- Python `dict.get(k, default)`. -/
def dictGet (fields : List (String × JVal)) (k : String) (d : JVal) : JVal :=
  (dictLookup fields k).getD d

/-- Python `k in dict`. -/
def dictHas (fields : List (String × JVal)) (k : String) : Bool :=
  (dictLookup fields k).isSome

/-- Python `==` between a JSON value and an int literal: ints compare by
value, bools compare as 0/1 (Python bool is an int subtype), every other
type is unequal. -/
def pyEqInt (v : JVal) (m : Int) : Bool :=
  match v with
  | JVal.jint n => n == m
  | JVal.jbool b => (if b then (1 : Int) else 0) == m
  | _ => false

/-- Python `==` between a JSON value and a str literal: only a str can be
equal to a str. -/
def pyEqStr (v : JVal) (t : String) : Bool :=
  match v with
  | JVal.jstr s => s == t
  | _ => false

/-- Python `is None` test on a JSON value. -/
def isNone : JVal → Bool
  | JVal.jnull => true
  | _ => false

/-- Outcome of one outbound HTTP request as `requests` surfaces it:
either an exception (timeout, connection error, any other raised error),
or a response with a transport status code and the outcome of parsing its
body as JSON (`response.json()`), where a parse error stands for the
`JSONDecodeError` that call raises. -/
inductive HttpOutcome where
  | exn : HttpOutcome
  | resp : Nat → Except Unit JVal → HttpOutcome

/-- The function `check_wx_domain(url)`, identical in domain_monitor.py
lines 77-110 and domain_check.py lines 63-96, with the single network
round trip it performs made an explicit argument (the function issues
exactly one GET and has no retry path). An empty url is falsy in Python
and is rejected up front; a 200 response has its body parsed and returned
unmodified; every other status, a body that is not valid JSON, and every
raised exception yield `none` (the except clause catches `Exception`, so
nothing escapes). -/
def check_wx_domain (url : String) (net : HttpOutcome) : Option JVal :=
  if url = "" then none
  else
    match net with
    | HttpOutcome.exn => none
    | HttpOutcome.resp status body =>
      if status = 200 then
        match body with
        | Except.ok v => some v
        | Except.error _ => none
      else none

/-- The four-way classified status the spec's table maps raw codes to. -/
inductive Status where
  | normal : Status
  | abnormal : Status
  | unknown : Status
  | failed : Status
deriving DecidableEq

/-- A display message as the two tools build one: the response's `data`
field passed through, a fixed literal text, or the unknown-code
annotation `reCode: ..., msg: ...` carrying the raw code and the data
field (the Python code renders these via f-strings; the structure, not
the rendering, is modelled). -/
inductive Msg where
  | fromData : JVal → Msg
  | fixed : String → Msg
  | annotated : JVal → JVal → Msg

/-- The fixed abnormal text for code 0, identical in both files. -/
def riskText : String := "风险网址拦截，链接可能包含不安全的内容"

/-- The fixed request-failed text the monitor loop prints
(domain_monitor.py line 263). -/
def monitorFailText : String := "请求失败"

/-- The fixed request-failed text the single-shot checker prints
(domain_check.py line 157). -/
def singleFailText : String := "请求失败，无法获取数据"

/-- The classification the monitor loop applies inline to one raw check
result (domain_monitor.py lines 226-264): the guard
`result and isinstance(result, dict) and 'reCode' in result` selects the
table branch on `reCode`, everything else is the request-failed case. -/
def classify_monitor (result : Option JVal) : Status × Msg :=
  match result with
  | some (JVal.jobj fields) =>
    if pyTruthy (JVal.jobj fields) && dictHas fields "reCode" then
      let re_code := dictGet fields "reCode" JVal.jnull
      let data_msg := dictGet fields "data" (JVal.jstr "")
      if pyEqInt re_code (-202) then (Status.normal, Msg.fromData data_msg)
      else if pyEqInt re_code (-203) then (Status.abnormal, Msg.fromData data_msg)
      else if pyEqInt re_code 0 then (Status.abnormal, Msg.fixed riskText)
      else (Status.unknown, Msg.annotated re_code data_msg)
    else (Status.failed, Msg.fixed monitorFailText)
  | _ => (Status.failed, Msg.fixed monitorFailText)

/-- A Python exception escaping the modelled code. -/
inductive PyErr where
  | attributeError : PyErr
deriving DecidableEq

/-- The classification the single-shot checker applies inline after its
check call (domain_check.py lines 131-157). Its first step is
`re_code = result.get('reCode', None)`: when `result` is None (the
documented failure return of `check_wx_domain`) or any non-dict JSON
body, that attribute access raises AttributeError, modelled as
`Except.error`. For a dict, `if re_code is not None` selects the table
branch; a missing or null `reCode` falls to the request-failed print. -/
def classify_single (result : Option JVal) : Except PyErr (Status × Msg) :=
  match result with
  | some (JVal.jobj fields) =>
    let re_code := dictGet fields "reCode" JVal.jnull
    if !(isNone re_code) then
      if pyEqInt re_code (-202) then
        Except.ok (Status.normal, Msg.fromData (dictGet fields "data" (JVal.jstr "")))
      else if pyEqInt re_code (-203) then
        Except.ok (Status.abnormal, Msg.fromData (dictGet fields "data" (JVal.jstr "")))
      else if pyEqInt re_code 0 then
        Except.ok (Status.abnormal, Msg.fixed riskText)
      else
        Except.ok (Status.unknown, Msg.annotated re_code (dictGet fields "data" (JVal.jstr "")))
    else Except.ok (Status.failed, Msg.fixed singleFailText)
  | some _ => Except.error PyErr.attributeError
  | none => Except.error PyErr.attributeError

/-- What one call of `send_webhook_notification` reports: the early
return when the passed status is not abnormal, the success print after a
200 response whose body carries errcode 0, or the delivery-failure print
of every other path. -/
inductive NotifyReport where
  | notSent : NotifyReport
  | sentSuccess : NotifyReport
  | sentFailure : NotifyReport
deriving DecidableEq

/-- The function `send_webhook_notification(url, result)` of
domain_monitor.py lines 113-147 (domain_check.py lines 22-60 differs only
in the message text), with the single webhook POST it performs made an
explicit argument. The guard returns early unless `result['status']` is
the string abnormal. Inside the try block: a raised exception, a
non-200 status, an unparseable body, a body that is not a dict (whose
`.get` raises, caught by the bare except), and a dict with a non-zero
`errcode` all print a delivery failure; only a 200 response whose dict
body has `errcode == 0` prints success. The function always returns:
no failure escapes the dispatcher, and no retry is attempted. -/
def send_webhook_notification (result : List (String × JVal)) (net : HttpOutcome) :
    NotifyReport :=
  if !(pyEqStr (dictGet result "status" JVal.jnull) "abnormal") then NotifyReport.notSent
  else
    match net with
    | HttpOutcome.exn => NotifyReport.sentFailure
    | HttpOutcome.resp status body =>
      if status = 200 then
        match body with
        | Except.ok (JVal.jobj fields) =>
          if pyEqInt (dictGet fields "errcode" JVal.jnull) 0 then NotifyReport.sentSuccess
          else NotifyReport.sentFailure
        | Except.ok _ => NotifyReport.sentFailure
        | Except.error _ => NotifyReport.sentFailure
      else NotifyReport.sentFailure

/-- The spec's success condition for a webhook delivery, written from the
spec's words for comparison: an HTTP-success transport status (the code's
success predicate is exactly status 200) together with an embedded
`errcode` of 0 in the response body. -/
def webhookSuccessCond (net : HttpOutcome) : Bool :=
  match net with
  | HttpOutcome.resp status (Except.ok (JVal.jobj fields)) =>
    status == 200 && pyEqInt (dictGet fields "errcode" JVal.jnull) 0
  | _ => false

/-- The characters Python's `str.strip()` removes: space, tab, newline,
carriage return, vertical tab and form feed. -/
def pyIsSpace (c : Char) : Bool :=
  c = ' ' || c = '\t' || c = '\n' || c = '\r' || c = '\x0b' || c = '\x0c'

/-- Python `str.strip()`: drop that whitespace from both ends. -/
def pyStrip (s : String) : String :=
  String.mk (((s.toList.dropWhile pyIsSpace).reverse.dropWhile pyIsSpace).reverse)

/-- Python `str.startswith(pre)`. -/
def pyStartsWith (s pre : String) : Bool :=
  pre.toList.isPrefixOf s.toList

/-- The per-line keep test of `load_domains` (domain_monitor.py line 47),
applied to the already stripped line: `line and not line.startswith('#')`
— a non-empty string that does not begin with the comment marker. -/
def keepLine (t : String) : Bool :=
  t != "" && !(pyStartsWith t "#")

/-- The accumulating line loop of `load_domains` (domain_monitor.py lines
44-48): strip each line, append it to `domains` when kept. -/
def load_lines_from (acc : List String) : List String → List String
  | [] => acc
  | line :: rest =>
    let t := pyStrip line
    if keepLine t then load_lines_from (acc ++ [t]) rest
    else load_lines_from acc rest

/-- The parsing phase of `load_domains` over the lines of a readable
domains.txt. -/
def load_lines (ls : List String) : List String :=
  load_lines_from [] ls

/-- The template lines `create_sample_domains_file` writes
(domain_monitor.py lines 60-71, joined with newlines). -/
def sample_domains : List String :=
  [ "# 域名列表文件",
    "# 每行一个域名，以 # 开头的行为注释，会被跳过",
    "# 修改此文件后，下次检测周期将自动生效",
    "",
    "# 示例域名（请替换为实际需要监测的域名）",
    "# www.baidu.com",
    "# www.qq.com" ]

/-- The state of domains.txt as `load_domains` can find it: absent,
present but unreadable (the open or read raises OSError, caught at line
51), or readable with its list of lines. -/
inductive DomainsFile where
  | absent : DomainsFile
  | unreadable : DomainsFile
  | readable : List String → DomainsFile

/-- What one `load_domains()` call does to the process: `written` is the
sample file it creates when domains.txt is absent, and `outcome` is
either the returned domain list or `Except.error c` for `sys.exit(c)` —
`create_sample_domains_file` writes the template, prints a prompt and
calls `sys.exit(0)`, so control never returns to the loop. A read
failure prints a warning and returns the empty list. -/
structure LoadOutcome where
  written : Option (List String)
  outcome : Except Nat (List String)

/-- The function `load_domains()` of domain_monitor.py lines 28-53 over
the modelled file state. -/
def load_domains : DomainsFile → LoadOutcome
  | DomainsFile.absent => ⟨some sample_domains, Except.error 0⟩
  | DomainsFile.unreadable => ⟨none, Except.ok []⟩
  | DomainsFile.readable ls => ⟨none, Except.ok (load_lines ls)⟩

/-- The state of one date's log file as `save_results` can find it:
absent, present but not valid JSON (the `json.load` raises, caught at
line 166), or present and parsing to a JSON value. -/
def LogFile : Type := Option (Except Unit JVal)

/-- The read phase of `save_results` (domain_monitor.py lines 161-167):
a missing file and an unparseable file both leave `existing_logs = []`; a
file parsing to a JSON array yields its elements. A file parsing to any
other JSON value is returned as-is by `json.load`, and the later
`existing_logs.append(...)` then raises an uncaught AttributeError —
that path is modelled as `Except.error`. -/
def readExistingLogs : LogFile → Except PyErr (List JVal)
  | none => Except.ok []
  | some (Except.error _) => Except.ok []
  | some (Except.ok (JVal.jarr l)) => Except.ok l
  | some (Except.ok _) => Except.error PyErr.attributeError

/-- The function `save_results(date_str, results)` of domain_monitor.py
lines 150-180 over the modelled file state. `writeOk` is whether the
final `json.dump` write succeeds; the write is wrapped in try/except, so
on failure the function prints an error and still returns. The result is
the full batch sequence the function computed (and wrote, when the write
succeeded) paired with whether a persistence failure was reported. -/
def save_results (existing : LogFile) (writeOk : Bool) (batch : JVal) :
    Except PyErr (List JVal × Bool) :=
  match readExistingLogs existing with
  | Except.error e => Except.error e
  | Except.ok logs => Except.ok (logs ++ [batch], !writeOk)

/-- The file state a successful `save_results` write leaves behind: a
parseable JSON array of the batches. -/
def logFileOf (logs : List JVal) : LogFile :=
  some (Except.ok (JVal.jarr logs))

/-- One element of `batch_results` (domain_monitor.py lines 256-272):
the domain, the stored raw result (the full parsed response on the
success path, `None` on the failure path even when a parsed body
existed), and the fixed error marker of the failure path. The wall-clock
`time` field is not modelled. -/
structure BatchEntry where
  domain : String
  result : Option JVal
  error : Option String

/-- The loop state one cycle of `run_monitor` accumulates over its
domains (domain_monitor.py lines 212-275): the three counters, the batch
record list, and the sequence of `send_webhook_notification` invocations
as (domain, msg) pairs in the order they are dispatched. -/
structure CycleStats where
  success_count : Nat
  abnormal_count : Nat
  unknown_count : Nat
  batch_results : List BatchEntry
  notifications : List (String × JVal)

/-- The counters and lists at the top of a cycle (lines 213-218). -/
def initStats : CycleStats := ⟨0, 0, 0, [], []⟩

/-- The failure-path batch record (lines 267-272). -/
def failEntry (domain : String) : BatchEntry :=
  ⟨domain, none, some "API调用失败"⟩

/-- One iteration of the per-domain loop body (domain_monitor.py lines
221-272) on the already obtained check result: the guard
`result and isinstance(result, dict) and 'reCode' in result` selects
the classification ladder on `reCode` — code -202 counts normal; -203
counts abnormal and dispatches a notification carrying the `data` field;
0 counts abnormal and dispatches the fixed risk text; any other code
counts unknown — and appends a record holding the full raw result.
Otherwise the domain counts unknown and a null-result record with the
fixed error marker is appended. -/
def monitorStep (acc : CycleStats) (domain : String) (result : Option JVal) :
    CycleStats :=
  match result with
  | some (JVal.jobj fields) =>
    if pyTruthy (JVal.jobj fields) && dictHas fields "reCode" then
      let re_code := dictGet fields "reCode" JVal.jnull
      let data_msg := dictGet fields "data" (JVal.jstr "")
      let acc1 :=
        if pyEqInt re_code (-202) then
          { acc with success_count := acc.success_count + 1 }
        else if pyEqInt re_code (-203) then
          { acc with abnormal_count := acc.abnormal_count + 1,
                     notifications := acc.notifications ++ [(domain, data_msg)] }
        else if pyEqInt re_code 0 then
          { acc with abnormal_count := acc.abnormal_count + 1,
                     notifications := acc.notifications ++ [(domain, JVal.jstr riskText)] }
        else
          { acc with unknown_count := acc.unknown_count + 1 }
      { acc1 with batch_results :=
          acc1.batch_results ++ [⟨domain, some (JVal.jobj fields), none⟩] }
    else
      { acc with unknown_count := acc.unknown_count + 1,
                 batch_results := acc.batch_results ++ [failEntry domain] }
  | _ =>
    { acc with unknown_count := acc.unknown_count + 1,
               batch_results := acc.batch_results ++ [failEntry domain] }

/-- The whole per-domain loop of one cycle, fed the check result obtained
for each domain in list order. -/
def process_domains (inputs : List (String × Option JVal)) : CycleStats :=
  inputs.foldl (fun acc p => monitorStep acc p.1 p.2) initStats

/-- Componentwise accumulation of cycle state: counters add, record and
notification lists concatenate. -/
def addStats (a b : CycleStats) : CycleStats :=
  ⟨a.success_count + b.success_count,
   a.abnormal_count + b.abnormal_count,
   a.unknown_count + b.unknown_count,
   a.batch_results ++ b.batch_results,
   a.notifications ++ b.notifications⟩

/-- The contribution of a single domain to the cycle state. -/
def domainDelta (domain : String) (result : Option JVal) : CycleStats :=
  monitorStep initStats domain result

/-- The rendered alert message of an abnormal classification, as passed
to `send_webhook_notification`: the response's `data` field for code
-203, the fixed risk text for code 0. The annotated constructor never
occurs on an abnormal classification; it is mapped to an arbitrary
value. -/
def msgPayload : Msg → JVal
  | Msg.fromData v => v
  | Msg.fixed s => JVal.jstr s
  | Msg.annotated _ _ => JVal.jnull

/-- The per-entry JSON record `run_monitor` appends to `batch_results`
(the wall-clock `time` field is not modelled): the success path stores
`domain` and the full raw `result`; the failure path stores a null
`result` and the fixed `error` marker. -/
def entryToJVal (e : BatchEntry) : JVal :=
  JVal.jobj
    ([("domain", JVal.jstr e.domain), ("result", e.result.getD JVal.jnull)] ++
      (match e.error with
       | none => []
       | some s => [("error", JVal.jstr s)]))

/-- The batch object `save_results` appends for one cycle (domain_monitor.py
lines 170-173): cycle timestamp plus the per-domain records. -/
def batchToJVal (ts : String) (entries : List BatchEntry) : JVal :=
  JVal.jobj
    [("timestamp", JVal.jstr ts),
     ("results", JVal.jarr (entries.map entryToJVal))]

/-- What one iteration of the `while True` loop in `run_monitor`
(domain_monitor.py lines 196-293) does, after the domain list has been
loaded: `warned` is the empty-list warning, `stats` the per-domain
processing outcome (`none` when no domain was checked), and `saved` the
`save_results` call (`none` when persistence was never invoked, so the
day's log file is untouched). -/
structure CycleOut where
  warned : Bool
  stats : Option CycleStats
  saved : Option (Except PyErr (List JVal × Bool))

/-- One monitor cycle over a loaded domain list: an empty list warns and
goes straight to the sleep; otherwise every domain is checked in order
via the oracle (one raw result per domain), processed by the loop body,
and the completed batch is handed to `save_results` under the current
date's log state. -/
def monitor_cycle (domains : List String) (oracle : String → Option JVal)
    (ts : String) (log : LogFile) (writeOk : Bool) : CycleOut :=
  if domains.isEmpty then ⟨true, none, none⟩
  else
    let stats := process_domains (domains.map (fun d => (d, oracle d)))
    ⟨false, some stats,
      some (save_results log writeOk (batchToJVal ts stats.batch_results))⟩

/-- The end-to-end scenario checker of the spec: code -202 for
a.example, code 0 for b.example. -/
def exampleOracle : String → Option JVal := fun d =>
  if d = "a.example" then
    some (JVal.jobj [("reCode", JVal.jint (-202)), ("data", JVal.jstr "ok")])
  else if d = "b.example" then
    some (JVal.jobj [("reCode", JVal.jint 0)])
  else none

/-- A raw check result that is a dict containing the key reCode — the
condition the monitor loop's success path requires (a dict holding a key
is non-empty, hence truthy, so the `result and` conjunct adds nothing). -/
def isDictWithReCode : Option JVal → Bool
  | some (JVal.jobj fields) => dictHas fields "reCode"
  | _ => false

/-- C4: for every input domain the check operation never raises (it is a
total function into `Option`), it returns the parsed structured response
unmodified exactly on a 200 response with a parseable body and a
non-empty url, and it returns `none` in every other case: non-success
transport status, timeout or any transport-level exception, or an
unparseable body. The single `HttpOutcome` argument is the at-most-one
network round trip: the definition has no retry. -/
theorem check_wx_domain_spec (url : String) (net : HttpOutcome) (v : JVal) :
    check_wx_domain url net = some v ↔
      url ≠ "" ∧ net = HttpOutcome.resp 200 (Except.ok v) := by
  unfold check_wx_domain
  by_cases hu : url = ""
  · simp [hu]
  · cases net with
    | exn => simp [hu]
    | resp status body =>
      by_cases hs : status = 200
      · cases body with
        | ok w => simp [hu, hs]
        | error e => simp [hu, hs]
      · simp [hu, hs]

/-- C1 (code bug): the classification table holds in the monitor loop for
every integer code and for a missing/failed result (None maps to Failed
with the fixed request-failed text), and the single-shot checker computes
the same table on well-formed dict responses with an integer code; but on
a `None` check result — the documented failure return of
`check_wx_domain`, e.g. after a timeout — the single-shot checker raises
an uncaught AttributeError at `result.get('reCode', None)` instead of
reporting Failed, so the mapping is not the same in both tools. -/
theorem classify_table_monitor_vs_single_shot :
    (∀ (n : Int) (d : JVal),
      classify_monitor (some (JVal.jobj [("reCode", JVal.jint n), ("data", d)])) =
        if n = -202 then (Status.normal, Msg.fromData d)
        else if n = -203 then (Status.abnormal, Msg.fromData d)
        else if n = 0 then (Status.abnormal, Msg.fixed riskText)
        else (Status.unknown, Msg.annotated (JVal.jint n) d)) ∧
    (∀ (n : Int) (d : JVal),
      classify_single (some (JVal.jobj [("reCode", JVal.jint n), ("data", d)])) =
        Except.ok (if n = -202 then (Status.normal, Msg.fromData d)
        else if n = -203 then (Status.abnormal, Msg.fromData d)
        else if n = 0 then (Status.abnormal, Msg.fixed riskText)
        else (Status.unknown, Msg.annotated (JVal.jint n) d))) ∧
    classify_monitor none = (Status.failed, Msg.fixed monitorFailText) ∧
    classify_single none = Except.error PyErr.attributeError := by
  refine ⟨?_, ?_, rfl, rfl⟩
  · intro n d
    by_cases h1 : n = -202
    · simp [classify_monitor, dictHas, dictLookup, dictGet, pyTruthy, pyEqInt, h1]
    · by_cases h2 : n = -203
      · simp [classify_monitor, dictHas, dictLookup, dictGet, pyTruthy, pyEqInt, h1, h2]
      · by_cases h3 : n = 0
        · simp [classify_monitor, dictHas, dictLookup, dictGet, pyTruthy, pyEqInt, h1, h2, h3]
        · simp [classify_monitor, dictHas, dictLookup, dictGet, pyTruthy, pyEqInt, h1, h2, h3]
  · intro n d
    by_cases h1 : n = -202
    · simp [classify_single, dictGet, dictLookup, isNone, pyEqInt, h1]
    · by_cases h2 : n = -203
      · simp [classify_single, dictGet, dictLookup, isNone, pyEqInt, h1, h2]
      · by_cases h3 : n = 0
        · simp [classify_single, dictGet, dictLookup, isNone, pyEqInt, h1, h2, h3]
        · simp [classify_single, dictGet, dictLookup, isNone, pyEqInt, h1, h2, h3]

/-- C7: when the dispatcher is invoked with an abnormal status (as the
monitor loop always does), it reports success exactly when the POST
returned transport status 200 and a body whose embedded `errcode` is 0;
every other outcome — exception, non-success HTTP status, unparseable or
non-dict body, non-zero embedded code — is reported as a delivery
failure. The dispatcher is a total function: a dispatch failure never
raises past it, and the cycle model never consumes its outcome, so a
failure cannot abort the enclosing cycle. -/
theorem send_webhook_success_iff (result : List (String × JVal))
    (h : pyEqStr (dictGet result "status" JVal.jnull) "abnormal" = true) :
    (∀ net, send_webhook_notification result net = NotifyReport.sentSuccess ↔
      webhookSuccessCond net = true) ∧
    (∀ net, webhookSuccessCond net = false →
      send_webhook_notification result net = NotifyReport.sentFailure) := by
  constructor
  · intro net
    cases net with
    | exn => simp [send_webhook_notification, webhookSuccessCond, h]
    | resp status body =>
      cases body with
      | error e =>
        by_cases hs : status = 200 <;>
          simp [send_webhook_notification, webhookSuccessCond, h, hs]
      | ok v =>
        cases v with
        | jobj fields =>
          by_cases hs : status = 200 <;>
            by_cases he : pyEqInt (dictGet fields "errcode" JVal.jnull) 0 = true <;>
              simp [send_webhook_notification, webhookSuccessCond, h, hs, he]
        | jnull =>
          by_cases hs : status = 200 <;>
            simp [send_webhook_notification, webhookSuccessCond, h, hs]
        | jbool b =>
          by_cases hs : status = 200 <;>
            simp [send_webhook_notification, webhookSuccessCond, h, hs]
        | jint n =>
          by_cases hs : status = 200 <;>
            simp [send_webhook_notification, webhookSuccessCond, h, hs]
        | jstr s =>
          by_cases hs : status = 200 <;>
            simp [send_webhook_notification, webhookSuccessCond, h, hs]
        | jarr l =>
          by_cases hs : status = 200 <;>
            simp [send_webhook_notification, webhookSuccessCond, h, hs]
  · intro net hcond
    cases net with
    | exn => simp [send_webhook_notification, h]
    | resp status body =>
      cases body with
      | error e =>
        by_cases hs : status = 200 <;>
          simp [send_webhook_notification, h, hs]
      | ok v =>
        cases v with
        | jobj fields =>
          by_cases hs : status = 200
          · have he : pyEqInt (dictGet fields "errcode" JVal.jnull) 0 = false := by
              by_contra hne
              rw [Bool.not_eq_false] at hne
              simp [webhookSuccessCond, hs, hne] at hcond
            simp [send_webhook_notification, h, hs, he]
          · simp [send_webhook_notification, h, hs]
        | jnull =>
          by_cases hs : status = 200 <;> simp [send_webhook_notification, h, hs]
        | jbool b =>
          by_cases hs : status = 200 <;> simp [send_webhook_notification, h, hs]
        | jint n =>
          by_cases hs : status = 200 <;> simp [send_webhook_notification, h, hs]
        | jstr s =>
          by_cases hs : status = 200 <;> simp [send_webhook_notification, h, hs]
        | jarr l =>
          by_cases hs : status = 200 <;> simp [send_webhook_notification, h, hs]

/-- Witness for C7: the dispatcher invoked with the abnormal payload the
monitor loop builds. -/
theorem send_webhook_success_iff_witness :
    (∀ net, send_webhook_notification
        [("status", JVal.jstr "abnormal"), ("msg", JVal.jstr "x")] net =
          NotifyReport.sentSuccess ↔ webhookSuccessCond net = true) ∧
    (∀ net, webhookSuccessCond net = false →
      send_webhook_notification
        [("status", JVal.jstr "abnormal"), ("msg", JVal.jstr "x")] net =
          NotifyReport.sentFailure) :=
  send_webhook_success_iff [("status", JVal.jstr "abnormal"), ("msg", JVal.jstr "x")]
    (by decide)

theorem load_lines_from_eq (ls : List String) :
    ∀ acc : List String, load_lines_from acc ls = acc ++ load_lines ls := by
  induction ls with
  | nil => intro acc; simp [load_lines, load_lines_from]
  | cons line rest ih =>
    intro acc
    by_cases hk : keepLine (pyStrip line) = true
    · have h1 : load_lines_from acc (line :: rest) =
          load_lines_from (acc ++ [pyStrip line]) rest := by
        simp only [load_lines_from]
        rw [if_pos hk]
      have h2 : load_lines (line :: rest) =
          load_lines_from ([] ++ [pyStrip line]) rest := by
        simp only [load_lines, load_lines_from]
        rw [if_pos hk]
      rw [h1, h2, ih (acc ++ [pyStrip line]), ih ([] ++ [pyStrip line])]
      simp
    · have h1 : load_lines_from acc (line :: rest) = load_lines_from acc rest := by
        simp only [load_lines_from]
        rw [if_neg hk]
      have h2 : load_lines (line :: rest) = load_lines_from [] rest := by
        simp only [load_lines, load_lines_from]
        rw [if_neg hk]
      rw [h1, h2, ih acc, ih []]
      simp

theorem load_lines_cons (line : String) (rest : List String) :
    load_lines (line :: rest) =
      if keepLine (pyStrip line) then pyStrip line :: load_lines rest
      else load_lines rest := by
  by_cases hk : keepLine (pyStrip line) = true
  · have h2 : load_lines (line :: rest) =
        load_lines_from ([] ++ [pyStrip line]) rest := by
      simp only [load_lines, load_lines_from]
      rw [if_pos hk]
    rw [h2, load_lines_from_eq rest ([] ++ [pyStrip line]), if_pos hk]
    simp
  · have h2 : load_lines (line :: rest) = load_lines_from [] rest := by
      simp only [load_lines, load_lines_from]
      rw [if_neg hk]
    rw [h2, if_neg hk]
    rfl

/-- C5: for every sequence of raw file lines, the loader returns exactly
the lines whose stripped form is non-empty and not a comment, each
stripped, in original file order, with no deduplication; blank and
comment lines are dropped wherever and however often they occur. -/
theorem load_lines_spec (ls : List String) :
    load_lines ls = (ls.filter (fun l => keepLine (pyStrip l))).map pyStrip := by
  induction ls with
  | nil => rfl
  | cons line rest ih =>
    rw [load_lines_cons]
    by_cases hk : keepLine (pyStrip line) = true
    · rw [if_pos hk]
      simp [List.filter_cons, hk, ih]
    · rw [if_neg hk]
      simp only [Bool.not_eq_true] at hk
      simp [List.filter_cons, hk, ih]

/-- C8: when domains.txt is absent the loader writes the sample file —
a non-empty template whose every line is blank or commented, so it
parses to an empty domain list — and the process exits cleanly with
status 0 (`Except.error 0`), so monitoring does not proceed this run and
the loop never continues on an empty list from a missing file. -/
theorem load_domains_bootstrap_on_absent :
    load_domains DomainsFile.absent = ⟨some sample_domains, Except.error 0⟩ ∧
    sample_domains ≠ [] ∧
    (∀ l ∈ sample_domains, pyStrip l = "" ∨ pyStartsWith (pyStrip l) "#" = true) ∧
    load_lines sample_domains = [] := by
  refine ⟨rfl, by decide, by decide, by decide⟩

/-- C3: log persistence is cumulative and corruption-tolerant. Writing
batch b1 over any previously written log l keeps all of l and appends
b1; writing b2 over the resulting file yields l, then b1, then b2 in
order — no previously persisted batch is dropped. An unparseable (or
absent) pre-existing file yields a fresh log holding only the new batch
instead of an error. A write failure still returns normally (no
exception) with the failure reported. -/
theorem save_results_cumulative :
    (∀ (l : List JVal) (b1 b2 : JVal),
      save_results (logFileOf l) true b1 = Except.ok (l ++ [b1], false) ∧
      save_results (logFileOf (l ++ [b1])) true b2 =
        Except.ok (l ++ [b1] ++ [b2], false)) ∧
    (∀ (b : JVal) (w : Bool),
      save_results (some (Except.error ())) w b = Except.ok ([b], !w) ∧
      save_results none w b = Except.ok ([b], !w)) ∧
    (∀ (l : List JVal) (b : JVal),
      save_results (logFileOf l) false b = Except.ok (l ++ [b], true)) := by
  refine ⟨fun l b1 b2 => ⟨rfl, rfl⟩, fun b w => ⟨rfl, rfl⟩, fun l b => rfl⟩

theorem addStats_init_right (a : CycleStats) : addStats a initStats = a := by
  obtain ⟨s, ab, u, br, nf⟩ := a
  simp [addStats, initStats]

theorem addStats_assoc (a b c : CycleStats) :
    addStats (addStats a b) c = addStats a (addStats b c) := by
  simp [addStats, Nat.add_assoc, List.append_assoc]

theorem monitorStep_delta (acc : CycleStats) (d : String) (r : Option JVal) :
    monitorStep acc d r = addStats acc (domainDelta d r) := by
  cases r with
  | none => simp [monitorStep, domainDelta, initStats, addStats]
  | some v =>
    cases v with
    | jobj fields =>
      by_cases hg : (pyTruthy (JVal.jobj fields) && dictHas fields "reCode") = true
      · by_cases h1 : pyEqInt (dictGet fields "reCode" JVal.jnull) (-202) = true
        · simp [monitorStep, domainDelta, initStats, addStats, hg, h1]
        · by_cases h2 : pyEqInt (dictGet fields "reCode" JVal.jnull) (-203) = true
          · simp [monitorStep, domainDelta, initStats, addStats, hg, h1, h2]
          · by_cases h3 : pyEqInt (dictGet fields "reCode" JVal.jnull) 0 = true
            · simp [monitorStep, domainDelta, initStats, addStats, hg, h1, h2, h3]
            · simp [monitorStep, domainDelta, initStats, addStats, hg, h1, h2, h3]
      · simp [monitorStep, domainDelta, initStats, addStats, hg]
    | jnull => simp [monitorStep, domainDelta, initStats, addStats]
    | jbool b => simp [monitorStep, domainDelta, initStats, addStats]
    | jint n => simp [monitorStep, domainDelta, initStats, addStats]
    | jstr s => simp [monitorStep, domainDelta, initStats, addStats]
    | jarr l => simp [monitorStep, domainDelta, initStats, addStats]

theorem process_domains_foldl (xs : List (String × Option JVal)) :
    ∀ acc : CycleStats,
      xs.foldl (fun a p => monitorStep a p.1 p.2) acc =
        addStats acc (process_domains xs) := by
  induction xs with
  | nil =>
    intro acc
    simp [process_domains, addStats_init_right]
  | cons p xs ih =>
    intro acc
    rw [List.foldl_cons, ih (monitorStep acc p.1 p.2)]
    have h : process_domains (p :: xs) =
        addStats (domainDelta p.1 p.2) (process_domains xs) := by
      show List.foldl _ _ (p :: xs) = _
      rw [List.foldl_cons, ih (monitorStep initStats p.1 p.2)]
      rfl
    rw [h, monitorStep_delta acc p.1 p.2, addStats_assoc]

theorem process_domains_cons (p : String × Option JVal)
    (xs : List (String × Option JVal)) :
    process_domains (p :: xs) =
      addStats (domainDelta p.1 p.2) (process_domains xs) := by
  show List.foldl _ _ (p :: xs) = _
  rw [List.foldl_cons, process_domains_foldl xs (monitorStep initStats p.1 p.2)]
  rfl

theorem domainDelta_classified (d : String) (r : Option JVal) :
    domainDelta d r =
      match classify_monitor r with
      | (Status.normal, _) => ⟨1, 0, 0, [⟨d, r, none⟩], []⟩
      | (Status.abnormal, m) => ⟨0, 1, 0, [⟨d, r, none⟩], [(d, msgPayload m)]⟩
      | (Status.unknown, _) => ⟨0, 0, 1, [⟨d, r, none⟩], []⟩
      | (Status.failed, _) => ⟨0, 0, 1, [failEntry d], []⟩ := by
  cases r with
  | none => simp [domainDelta, monitorStep, classify_monitor, initStats]
  | some v =>
    cases v with
    | jobj fields =>
      by_cases hg : (pyTruthy (JVal.jobj fields) && dictHas fields "reCode") = true
      · by_cases h1 : pyEqInt (dictGet fields "reCode" JVal.jnull) (-202) = true
        · simp [domainDelta, monitorStep, classify_monitor, initStats, msgPayload,
            hg, h1]
        · by_cases h2 : pyEqInt (dictGet fields "reCode" JVal.jnull) (-203) = true
          · simp [domainDelta, monitorStep, classify_monitor, initStats, msgPayload,
              hg, h1, h2]
          · by_cases h3 : pyEqInt (dictGet fields "reCode" JVal.jnull) 0 = true
            · simp [domainDelta, monitorStep, classify_monitor, initStats, msgPayload,
                hg, h1, h2, h3]
            · simp [domainDelta, monitorStep, classify_monitor, initStats, msgPayload,
                hg, h1, h2, h3]
      · simp [domainDelta, monitorStep, classify_monitor, initStats, hg]
    | jnull => simp [domainDelta, monitorStep, classify_monitor, initStats]
    | jbool b => simp [domainDelta, monitorStep, classify_monitor, initStats]
    | jint n => simp [domainDelta, monitorStep, classify_monitor, initStats]
    | jstr s => simp [domainDelta, monitorStep, classify_monitor, initStats]
    | jarr l => simp [domainDelta, monitorStep, classify_monitor, initStats]

theorem domainDelta_counts (d : String) (r : Option JVal) :
    (domainDelta d r).success_count + (domainDelta d r).abnormal_count +
        (domainDelta d r).unknown_count = 1 ∧
      (domainDelta d r).batch_results.length = 1 ∧
      (domainDelta d r).batch_results.map BatchEntry.domain = [d] := by
  cases hsm : classify_monitor r with
  | mk st m =>
    rw [domainDelta_classified, hsm]
    cases st <;> simp [failEntry]

/-- C2: over one cycle, the sequence of invocations of the notification
dispatcher is exactly the abnormal-classified domains in list order, each
carrying its abnormal display message: one invocation per Abnormal
classification, and none for a Normal, Unknown, or Failed one. -/
theorem notify_iff_abnormal (inputs : List (String × Option JVal)) :
    (process_domains inputs).notifications =
      (inputs.filter (fun p => (classify_monitor p.2).1 == Status.abnormal)).map
        (fun p => (p.1, msgPayload (classify_monitor p.2).2)) := by
  induction inputs with
  | nil => rfl
  | cons p xs ih =>
    rw [process_domains_cons]
    cases hsm : classify_monitor p.2 with
    | mk st m =>
      cases st <;>
        simp [addStats, domainDelta_classified, hsm, ih, List.filter_cons]

theorem process_domains_accounting (inputs : List (String × Option JVal)) :
    (process_domains inputs).success_count +
        (process_domains inputs).abnormal_count +
        (process_domains inputs).unknown_count = inputs.length ∧
      (process_domains inputs).batch_results.length = inputs.length ∧
      (process_domains inputs).batch_results.map BatchEntry.domain =
        inputs.map Prod.fst := by
  induction inputs with
  | nil => exact ⟨rfl, rfl, rfl⟩
  | cons p xs ih =>
    obtain ⟨ihc, ihl, ihd⟩ := ih
    obtain ⟨hdc, hdl, hdd⟩ := domainDelta_counts p.1 p.2
    rw [process_domains_cons]
    refine ⟨?_, ?_, ?_⟩
    · simp only [addStats, List.length_cons]
      omega
    · simp only [addStats, List.length_append, List.length_cons]
      omega
    · simp only [addStats, List.map_append, List.map_cons, hdd, ihd]
      simp

/-- C6: in every cycle each checked domain contributes exactly one
counter increment and exactly one batch record in list order, so
normal + abnormal + unknown equals the number of domains checked, which
equals the batch length; and on the spec's end-to-end scenario
(a.example with code -202, b.example with code 0) one cycle yields
normal 1, abnormal 1, unknown 0, exactly one notification attempt (for
b.example), and appends one batch holding the two records to the day's
log. -/
theorem cycle_accounting :
    (∀ inputs : List (String × Option JVal),
      (process_domains inputs).success_count +
          (process_domains inputs).abnormal_count +
          (process_domains inputs).unknown_count = inputs.length ∧
        (process_domains inputs).batch_results.length = inputs.length ∧
        (process_domains inputs).batch_results.map BatchEntry.domain =
          inputs.map Prod.fst) ∧
    monitor_cycle ["a.example", "b.example"] exampleOracle "12:00:00" none true =
      ⟨false,
        some ⟨1, 1, 0,
          [⟨"a.example",
             some (JVal.jobj [("reCode", JVal.jint (-202)), ("data", JVal.jstr "ok")]),
             none⟩,
           ⟨"b.example", some (JVal.jobj [("reCode", JVal.jint 0)]), none⟩],
          [("b.example", JVal.jstr riskText)]⟩,
        some (Except.ok
          ([batchToJVal "12:00:00"
             [⟨"a.example",
                some (JVal.jobj [("reCode", JVal.jint (-202)), ("data", JVal.jstr "ok")]),
                none⟩,
              ⟨"b.example", some (JVal.jobj [("reCode", JVal.jint 0)]), none⟩]],
           false))⟩ :=
  ⟨process_domains_accounting, rfl⟩

/-- C9: a cycle whose loaded domain list is empty emits the warning and
goes straight to the sleep: no domain is checked, no notification is
dispatched, no batch is built, and `save_results` is never invoked, so
the day's log file is untouched whatever its state. -/
theorem empty_list_skips_cycle (oracle : String → Option JVal) (ts : String)
    (log : LogFile) (writeOk : Bool) :
    monitor_cycle [] oracle ts log writeOk = ⟨true, none, none⟩ := rfl

/-- C10: any check result that is not a dict containing the key reCode —
a falsy value, a non-dict JSON body, or a dict lacking the key — is
processed exactly like an unreachable endpoint: it counts in the
unknown/failed bucket, dispatches no notification, and its batch record
stores a null result plus the fixed error marker, discarding whatever
parsed body was returned. -/
theorem non_recode_result_treated_as_failure (d : String) (r : Option JVal)
    (h : isDictWithReCode r = false) :
    process_domains [(d, r)] = ⟨0, 0, 1, [failEntry d], []⟩ := by
  show monitorStep initStats d r = _
  cases r with
  | none => rfl
  | some v =>
    cases v with
    | jobj fields =>
      have hk : dictHas fields "reCode" = false := by
        simpa [isDictWithReCode] using h
      simp [monitorStep, initStats, hk]
    | jnull => rfl
    | jbool b => rfl
    | jint n => rfl
    | jstr s => rfl
    | jarr l => rfl

/-- Witness for C10: a parsed dict body without reCode is discarded and
recorded as a failure. -/
theorem non_recode_result_treated_as_failure_witness :
    process_domains [("x.example", some (JVal.jobj [("foo", JVal.jint 1)]))] =
      ⟨0, 0, 1, [failEntry "x.example"], []⟩ :=
  non_recode_result_treated_as_failure "x.example"
    (some (JVal.jobj [("foo", JVal.jint 1)])) (by decide)

end WxMonitor
